import Mathlib

/-! Verification of the station-compilation core of AirAware
(`src/spark/compile_stations.py`).

The validator (`valid_nonzero_float`, `parse_station_record`) is embedded
over `ℚ`: the numeric fields of a station record are decimal literal
strings, whose values are represented exactly as rationals, keeping every
definition computable and every concrete run decidable.  Exceptions raised
by the Python code (`IndexError` from `record[i]` on a short record,
`ValueError` from `dateutil.parser.parse` on a malformed date) are
modelled with `Except`; the Python sentinel `None` for "reject this
record" is `Except.ok none`.

The geometric part (`calc_distance`, `determine_grid_point_neighbors`) is
embedded over `ℝ` with exact real arithmetic; `math.asin` agrees with
`Real.arcsin` on `[-1, 1]`, and we prove that in exact arithmetic the
argument handed to it always lies in `[0, 1]`.
-/

namespace CompileStations

/-- Value of a list of decimal digit characters, most significant first
(accumulator form). -/
def digitsToNat : List Char → ℕ → ℕ
  | [], acc => acc
  | c :: cs, acc => digitsToNat cs (acc * 10 + (c.toNat - '0'.toNat))

/-- Models CPython `float(string)` on plain decimal literals: optional
sign, integer digits, optional fractional part, optional `e`/`E`
exponent (no `inf`, `nan`, underscores or surrounding whitespace, which
do not occur in the registry data).  Returns the exact decimal value as
a rational; `none` models the `ValueError` CPython raises on a
non-numeric string. -/
def pyFloat (s : String) : Option ℚ :=
  let signRest : ℤ × List Char :=
    match s.data with
    | '+' :: t => (1, t)
    | '-' :: t => (-1, t)
    | t => (1, t)
  let (ip, cs2) := signRest.2.span Char.isDigit
  let fracRest : List Char × List Char :=
    match cs2 with
    | '.' :: t => t.span Char.isDigit
    | t => ([], t)
  let fp := fracRest.1
  if ip.isEmpty ∧ fp.isEmpty then none
  else
    -- the decimal value sign * ip.fp * 10 ^ e, written with `mkRat` over
    -- integer arithmetic so that concrete runs reduce
    let mant : ℕ := digitsToNat (ip ++ fp) 0
    let value : ℤ → Option ℚ := fun e =>
      let shift : ℤ := e - fp.length
      if 0 ≤ shift then some (mkRat (signRest.1 * mant * 10 ^ shift.toNat) 1)
      else some (mkRat (signRest.1 * mant) (10 ^ (-shift).toNat))
    match fracRest.2 with
    | [] => value 0
    | e :: t =>
      if e = 'e' ∨ e = 'E' then
        let expRest : ℤ × List Char :=
          match t with
          | '+' :: u => (1, u)
          | '-' :: u => (-1, u)
          | u => (1, u)
        let (ed, t2) := expRest.2.span Char.isDigit
        if ed.isEmpty ∨ ¬ t2.isEmpty then none
        else value (expRest.1 * (digitsToNat ed 0 : ℤ))
      else none

/-- Function `valid_nonzero_float` from `compile_stations.py`: `float(string)`
wrapped in try/except, returning the number when it is nonzero and
`None` (here `none`) when parsing fails or the value is exactly zero. -/
def valid_nonzero_float (string : String) : Option ℚ :=
  match pyFloat string with
  | some number => if number ≠ 0 then some number else none
  | none => none

/-- Split a character list at `-` separators. -/
def splitDash : List Char → List (List Char)
  | [] => [[]]
  | c :: cs =>
    if c = '-' then [] :: splitDash cs
    else
      match splitDash cs with
      | [] => [[c]]
      | g :: gs => (c :: g) :: gs

/-- Digit-group to number; `none` when empty or containing a non-digit. -/
def natDigits (s : List Char) : Option ℕ :=
  if s.isEmpty ∨ ¬ s.all Char.isDigit then none else some (digitsToNat s 0)

/-- Calendar dates as `(year, month, day)`. -/
abbrev Date := ℕ × ℕ × ℕ

/-- Models `dateutil.parser.parse` on the ISO `YYYY-MM-DD` strings used by
the registry's closure-date field: three dash-separated digit groups with
a plausible month and day.  `none` models the `ValueError` raised on a
string that is not a date. -/
def parseDate (s : String) : Option Date :=
  match splitDash s.data with
  | [ys, ms, ds] =>
    match natDigits ys, natDigits ms, natDigits ds with
    | some y, some m, some d =>
      if 1 ≤ m ∧ m ≤ 12 ∧ 1 ≤ d ∧ d ≤ 31 then some (y, m, d) else none
    | _, _, _ => none
  | _ => none

/-- Python `datetime` order restricted to dates: lexicographic on year,
month, day. -/
def dateLt (a b : Date) : Bool :=
  decide (a.1 < b.1 ∨ (a.1 = b.1 ∧ (a.2.1 < b.2.1 ∨ (a.2.1 = b.2.1 ∧ a.2.2 < b.2.2))))

/-- Exceptions the Python validator can raise: `IndexError` from
`record[i]` on a short record, `ValueError` from `dateutil.parser.parse`
on a closure field that is not a date. -/
inductive PyError
  | indexError
  | valueError
deriving DecidableEq

deriving instance DecidableEq for Except

/-- Function `parse_station_record` from `compile_stations.py`, taking the record
already split into CSV fields (the `csv.reader` call).  `record[i]` is
`record[i]?` with `IndexError` when the index is out of range; the
Python `return None` rejection sentinel is `.ok none`; a successfully
validated station is `.ok (some (station_id, latitude, longitude))`. -/
def parse_station_record (record : List String) :
    Except PyError (Option (String × ℚ × ℚ)) :=
  match record[0]? with
  | none => .error .indexError
  | some state_id =>
    -- Filter out header, Canada, Mexico, US Virgin Islands, or Guam
    if state_id ∈ ["State Code", "CC", "80", "78", "66"] then .ok none
    else
      match record[1]? with
      | none => .error .indexError
      | some county_id =>
        match record[2]? with
        | none => .error .indexError
        | some site_number =>
          let station_id := state_id ++ "|" ++ county_id ++ "|" ++ site_number
          match record[3]? with
          | none => .error .indexError
          | some field3 =>
            let latitude := valid_nonzero_float field3
            match record[4]? with
            | none => .error .indexError
            | some field4 =>
              let longitude := valid_nonzero_float field4
              match latitude, longitude with
              | some lat, some lon =>
                match record[5]? with
                | none => .error .indexError
                | some datum =>
                  if datum ∈ ["WGS84", "NAD83"] then
                    match record[10]? with
                    | none => .error .indexError
                    | some closed =>
                      if closed ≠ "" then
                        match parseDate closed with
                        | none => .error .valueError
                        | some closed_date =>
                          match parseDate "1980-01-01" with
                          | none => .error .valueError
                          | some history_span =>
                            -- Do not consider stations closed before January 1, 1980
                            if dateLt closed_date history_span then .ok none
                            else .ok (some (station_id, lat, lon))
                      else .ok (some (station_id, lat, lon))
                  else
                    -- Filter out old or malformed geospatial coordinates
                    .ok none
              | _, _ => .ok none

/-! ## Geometry: `calc_distance` and `determine_grid_point_neighbors` -/

/-- Python `math.radians`: degrees to radians. -/
noncomputable def radians (x : ℝ) : ℝ := x * Real.pi / 180

/-- Function `calc_distance` from `compile_stations.py`: haversine great-circle
distance in miles with Earth radius 3959.  `math.asin` is embedded as
`Real.arcsin`; the two agree on `[-1, 1]`, and `haversine_term_bounds`
below shows that in exact real arithmetic the argument stays in
`[0, 1]`. -/
noncomputable def calc_distance (lat1 lon1 lat2 lon2 : ℝ) : ℝ :=
  let R : ℝ := 3959
  let delta_lat := radians (lat2 - lat1)
  let delta_lon := radians (lon2 - lon1)
  let lat1r := radians lat1
  let lat2r := radians lat2
  let a := Real.sin (delta_lat / 2) ^ 2 +
    Real.cos lat1r * Real.cos lat2r * Real.sin (delta_lon / 2) ^ 2
  let c := 2 * Real.arcsin (Real.sqrt a)
  R * c

/-- Python `round` to an integer: round-half-to-even (banker's
rounding) — ties, where the fractional part is exactly one half, go to
the even neighbour, everything else to the nearest integer. -/
noncomputable def py_round (x : ℝ) : ℤ :=
  if x - ⌊x⌋ = 1 / 2 then (if Even ⌊x⌋ then ⌊x⌋ else ⌊x⌋ + 1) else round x

/-- Python `round(x, p)`: round to `p` decimal places. -/
noncomputable def round_to (x : ℝ) (p : ℕ) : ℝ :=
  (py_round (x * 10 ^ p) : ℝ) / 10 ^ p

/-- A grid reference point: one entry `{id, lat, lon}` of the
`grid.json` list. -/
structure GridPoint where
  id : String
  lat : ℝ
  lon : ℝ

/-- Function `determine_grid_point_neighbors` from `compile_stations.py`: for a
validated station tuple `(station_id, latitude, longitude)` and the
read-only grid list `GRID` (the Python module-level global, passed
explicitly here), keep every grid point whose distance to the station is
strictly below the 30-mile cutoff, storing that distance rounded to one
decimal place.  The Python dict built by the loop is modelled as the
association list in iteration order. -/
noncomputable def determine_grid_point_neighbors (GRID : List GridPoint)
    (rdd : String × ℝ × ℝ) : String × List (String × ℝ) :=
  let d_cutoff : ℝ := 30
  let precision : ℕ := 1
  let station_id := rdd.1
  let station_latitude := rdd.2.1
  let station_longitude := rdd.2.2
  let adjacent_grid_points := GRID.filterMap fun grid =>
    let d := calc_distance grid.lat grid.lon station_latitude station_longitude
    if d < d_cutoff then some (grid.id, round_to d precision) else none
  (station_id, adjacent_grid_points)

/-- Product-to-sum identity feeding the haversine bound:
`sin² u + cos (v - u) · cos (v + u) = cos² v`. -/
lemma sin_sq_add_cos_mul_cos (u v : ℝ) :
    Real.sin u ^ 2 + Real.cos (v - u) * Real.cos (v + u) = Real.cos v ^ 2 := by
  rw [Real.cos_sub, Real.cos_add]
  have h1 := Real.sin_sq_add_cos_sq u
  have h2 := Real.sin_sq_add_cos_sq v
  nlinarith [h1, h2]

/-- In exact real arithmetic the haversine intermediate
`sin²(Δφ/2) + cos φ₁ · cos φ₂ · t` lies in `[0, 1]` whenever
`t ∈ [0, 1]`, for all real latitudes. -/
lemma haversine_term_bounds (lat1r lat2r t : ℝ) (ht0 : 0 ≤ t) (ht1 : t ≤ 1) :
    0 ≤ Real.sin ((lat2r - lat1r) / 2) ^ 2 + Real.cos lat1r * Real.cos lat2r * t ∧
      Real.sin ((lat2r - lat1r) / 2) ^ 2 + Real.cos lat1r * Real.cos lat2r * t ≤ 1 := by
  have key := sin_sq_add_cos_mul_cos ((lat2r - lat1r) / 2) ((lat1r + lat2r) / 2)
  have e1 : (lat1r + lat2r) / 2 - (lat2r - lat1r) / 2 = lat1r := by ring
  have e2 : (lat1r + lat2r) / 2 + (lat2r - lat1r) / 2 = lat2r := by ring
  rw [e1, e2] at key
  constructor <;>
    nlinarith [sq_nonneg (Real.sin ((lat2r - lat1r) / 2)),
      Real.sin_sq_le_one ((lat2r - lat1r) / 2),
      sq_nonneg (Real.cos ((lat1r + lat2r) / 2)),
      Real.cos_sq_le_one ((lat1r + lat2r) / 2)]

/-- The distance from any point to itself is zero. -/
lemma calc_distance_self (lat lon : ℝ) : calc_distance lat lon lat lon = 0 := by
  simp only [calc_distance, radians]
  have h : (lat - lat) * Real.pi / 180 / 2 = 0 := by ring
  have h2 : (lon - lon) * Real.pi / 180 / 2 = 0 := by ring
  rw [h, h2]
  simp [Real.sin_zero, Real.arcsin_zero, Real.sqrt_zero]

/-! ## Shared evaluation lemmas for the validator -/

/-- `valid_nonzero_float` returns `none` exactly when the string fails
to parse or parses to zero. -/
lemma valid_nonzero_float_eq_none (s : String) :
    valid_nonzero_float s = none ↔ pyFloat s = none ∨ pyFloat s = some 0 := by
  unfold valid_nonzero_float
  rcases h : pyFloat s with _ | q
  · simp
  · by_cases hq : q = 0 <;> simp [hq]

/-- The fixed comparison date parses to January 1, 1980. -/
lemma parseDate_history_span : parseDate "1980-01-01" = some (1980, 1, 1) := by decide

/-- The empty closure field is not a date. -/
lemma parseDate_empty : parseDate "" = none := by decide

/-- A string that parses as a date is non-empty. -/
lemma parseDate_ne_empty {s : String} {d : Date} (h : parseDate s = some d) :
    s ≠ "" := by
  intro he
  rw [he, parseDate_empty] at h
  exact Option.noConfusion h

/-- Closed form of `parse_station_record` on a record with at least 11
fields: no `IndexError` is possible, and the result is decided by the
region filter, the coordinate fields, the datum field and the
closure-date field. -/
lemma parse_station_record_cons_eval
    (f0 f1 f2 f3 f4 f5 f6 f7 f8 f9 f10 : String) (rest : List String) :
    parse_station_record
        (f0 :: f1 :: f2 :: f3 :: f4 :: f5 :: f6 :: f7 :: f8 :: f9 :: f10 :: rest) =
      if f0 ∈ ["State Code", "CC", "80", "78", "66"] then .ok none
      else
        match valid_nonzero_float f3, valid_nonzero_float f4 with
        | some lat, some lon =>
          if f5 ∈ ["WGS84", "NAD83"] then
            if f10 ≠ "" then
              match parseDate f10 with
              | none => .error .valueError
              | some closed_date =>
                if dateLt closed_date (1980, 1, 1) then .ok none
                else .ok (some (f0 ++ "|" ++ f1 ++ "|" ++ f2, lat, lon))
            else .ok (some (f0 ++ "|" ++ f1 ++ "|" ++ f2, lat, lon))
          else .ok none
        | _, _ => .ok none := by
  simp only [parse_station_record, List.getElem?_cons_zero, List.getElem?_cons_succ,
    parseDate_history_span]

/-! ## Claims about the validator -/

/-- Claim C8: a record whose first field (region code) is the header
label "State Code" or one of the excluded territory codes "CC", "80",
"78", "66" is rejected regardless of all other field values. -/
theorem C8_region_filter_rejects (state_id : String) (rest : List String)
    (h : state_id ∈ ["State Code", "CC", "80", "78", "66"]) :
    parse_station_record (state_id :: rest) = .ok none := by
  simp [parse_station_record, h]

/-- Witness for C8 at the concrete excluded region code "CC". -/
theorem C8_region_filter_rejects_witness :
    "CC" ∈ ["State Code", "CC", "80", "78", "66"] ∧
      parse_station_record ["CC"] = .ok none :=
  ⟨by decide, C8_region_filter_rejects "CC" [] (by decide)⟩

/-- Claim C9: a record past the region filter is rejected whenever its
latitude field (index 3) or its longitude field (index 4) fails to parse
as a float or parses to exactly zero — in particular a latitude of "0"
rejects the record whatever the longitude field holds. -/
theorem C9_zero_or_unparsable_coordinate_rejects
    (f0 f1 f2 f3 f4 : String) (rest : List String)
    (h0 : f0 ∉ ["State Code", "CC", "80", "78", "66"])
    (hbad : (pyFloat f3 = none ∨ pyFloat f3 = some 0) ∨
            (pyFloat f4 = none ∨ pyFloat f4 = some 0)) :
    parse_station_record (f0 :: f1 :: f2 :: f3 :: f4 :: rest) = .ok none := by
  have h34 : valid_nonzero_float f3 = none ∨ valid_nonzero_float f4 = none := by
    rcases hbad with h | h
    · exact Or.inl ((valid_nonzero_float_eq_none f3).mpr h)
    · exact Or.inr ((valid_nonzero_float_eq_none f4).mpr h)
  simp only [parse_station_record, List.getElem?_cons_zero, List.getElem?_cons_succ]
  rw [if_neg h0]
  rcases h34 with h | h
  · rw [h]
  · rw [h]
    rcases valid_nonzero_float f3 with _ | q <;> rfl

/-- Witness for C9: latitude field "0" with an unparsable longitude
field still yields rejection, not an error. -/
theorem C9_zero_or_unparsable_coordinate_rejects_witness :
    "01" ∉ ["State Code", "CC", "80", "78", "66"] ∧
      pyFloat "0" = some 0 ∧
      parse_station_record ["01", "001", "0001", "0", "garbage"] = .ok none :=
  ⟨by decide, by decide,
    C9_zero_or_unparsable_coordinate_rejects "01" "001" "0001" "0" "garbage" []
      (by decide) (Or.inl (Or.inr (by decide)))⟩

/-- Claim C4: a record passing every rejection rule yields a station
whose id is the region, subregion and site fields joined with "|", and
whose coordinates are the parsed latitude and longitude fields. -/
theorem C4_accepted_record_station_fields
    (f0 f1 f2 f3 f4 f5 f6 f7 f8 f9 f10 : String) (rest : List String)
    (lat lon : ℚ)
    (h0 : f0 ∉ ["State Code", "CC", "80", "78", "66"])
    (h3 : valid_nonzero_float f3 = some lat)
    (h4 : valid_nonzero_float f4 = some lon)
    (h5 : f5 ∈ ["WGS84", "NAD83"])
    (h10 : f10 = "" ∨
      ∃ cd, parseDate f10 = some cd ∧ dateLt cd (1980, 1, 1) = false) :
    parse_station_record
        (f0 :: f1 :: f2 :: f3 :: f4 :: f5 :: f6 :: f7 :: f8 :: f9 :: f10 :: rest) =
      .ok (some (f0 ++ "|" ++ f1 ++ "|" ++ f2, lat, lon)) := by
  rw [parse_station_record_cons_eval, if_neg h0, h3, h4]
  dsimp only
  rw [if_pos h5]
  rcases h10 with he | ⟨cd, hcd, hlt⟩
  · simp [he]
  · rw [if_pos (parseDate_ne_empty hcd), hcd]
    dsimp only
    rw [hlt]
    rfl

/-- Witness for C4 on a concrete fully-valid record. -/
theorem C4_accepted_record_station_fields_witness :
    valid_nonzero_float "33.5" = some (mkRat 67 2) ∧
      parse_station_record
        ["01", "001", "0001", "33.5", "-86.8", "WGS84", "", "", "", "", ""] =
      .ok (some ("01|001|0001", mkRat 67 2, mkRat (-434) 5)) :=
  ⟨by decide,
    C4_accepted_record_station_fields "01" "001" "0001" "33.5" "-86.8" "WGS84"
      "" "" "" "" "" [] (mkRat 67 2) (mkRat (-434) 5)
      (by decide) (by decide) (by decide) (by decide) (Or.inl rfl)⟩

/-- Claim C5: with all other fields valid, a record whose closure-date
field parses to a date strictly before January 1, 1980 is rejected, and
one whose closure date is on or after the cutoff is accepted. -/
theorem C5_closure_date_filter
    (f0 f1 f2 f3 f4 f5 f6 f7 f8 f9 f10 : String) (rest : List String)
    (lat lon : ℚ) (cd : Date)
    (h0 : f0 ∉ ["State Code", "CC", "80", "78", "66"])
    (h3 : valid_nonzero_float f3 = some lat)
    (h4 : valid_nonzero_float f4 = some lon)
    (h5 : f5 ∈ ["WGS84", "NAD83"])
    (hcd : parseDate f10 = some cd) :
    parse_station_record
        (f0 :: f1 :: f2 :: f3 :: f4 :: f5 :: f6 :: f7 :: f8 :: f9 :: f10 :: rest) =
      if dateLt cd (1980, 1, 1) then .ok none
      else .ok (some (f0 ++ "|" ++ f1 ++ "|" ++ f2, lat, lon)) := by
  rw [parse_station_record_cons_eval, if_neg h0, h3, h4]
  dsimp only
  rw [if_pos h5, if_pos (parseDate_ne_empty hcd), hcd]

/-- Witness for C5: the closure date "1975-06-01" is rejected and the
closure date "1985-06-01" is accepted, all other fields equal. -/
theorem C5_closure_date_filter_witness :
    parseDate "1975-06-01" = some (1975, 6, 1) ∧
      parse_station_record
        ["01", "001", "0001", "33.5", "-86.8", "WGS84", "", "", "", "", "1975-06-01"] =
        .ok none ∧
      parse_station_record
        ["01", "001", "0001", "33.5", "-86.8", "WGS84", "", "", "", "", "1985-06-01"] =
        .ok (some ("01|001|0001", mkRat 67 2, mkRat (-434) 5)) := by
  refine ⟨by decide, ?_, ?_⟩
  · rw [C5_closure_date_filter "01" "001" "0001" "33.5" "-86.8" "WGS84"
      "" "" "" "" "1975-06-01" [] (mkRat 67 2) (mkRat (-434) 5) (1975, 6, 1)
      (by decide) (by decide) (by decide) (by decide) (by decide)]
    decide
  · rw [C5_closure_date_filter "01" "001" "0001" "33.5" "-86.8" "WGS84"
      "" "" "" "" "1985-06-01" [] (mkRat 67 2) (mkRat (-434) 5) (1985, 6, 1)
      (by decide) (by decide) (by decide) (by decide) (by decide)]
    decide

/-- Counterexample to claim C2 as stated: on a malformed record with too
few fields the validator raises `IndexError` (here `Except.error`)
instead of signalling rejection. -/
theorem C2_counterexample :
    parse_station_record ["01"] = .error PyError.indexError := by decide

/-- Claim C2 as amended: on a record with at least 11 fields whose
closure-date field is empty or parses as a date, `parse_station_record`
returns normally — a `Station` or the rejection sentinel — and no
exception escapes; float parsing failures never raise. -/
theorem C2_amended_no_exception
    (f0 f1 f2 f3 f4 f5 f6 f7 f8 f9 f10 : String) (rest : List String)
    (h10 : f10 = "" ∨ (parseDate f10).isSome) :
    ∃ r, parse_station_record
        (f0 :: f1 :: f2 :: f3 :: f4 :: f5 :: f6 :: f7 :: f8 :: f9 :: f10 :: rest) =
      .ok r := by
  rw [parse_station_record_cons_eval]
  by_cases hreg : f0 ∈ ["State Code", "CC", "80", "78", "66"]
  · exact ⟨none, by rw [if_pos hreg]⟩
  · rw [if_neg hreg]
    rcases valid_nonzero_float f3 with _ | lat
    · exact ⟨none, rfl⟩
    · rcases valid_nonzero_float f4 with _ | lon
      · exact ⟨none, rfl⟩
      · dsimp only
        by_cases h5 : f5 ∈ ["WGS84", "NAD83"]
        · rw [if_pos h5]
          rcases h10 with he | hsome
          · exact ⟨some (f0 ++ "|" ++ f1 ++ "|" ++ f2, lat, lon), by simp [he]⟩
          · rcases hd : parseDate f10 with _ | cd
            · rw [hd] at hsome; exact absurd hsome (by simp)
            · rw [if_pos (parseDate_ne_empty hd)]
              dsimp only
              by_cases hlt : dateLt cd (1980, 1, 1) = true
              · exact ⟨none, by rw [if_pos hlt]⟩
              · exact ⟨some (f0 ++ "|" ++ f1 ++ "|" ++ f2, lat, lon),
                  by rw [if_neg hlt]⟩
        · exact ⟨none, by rw [if_neg h5]⟩

/-- Witness for the amended C2 on a concrete 11-field record. -/
theorem C2_amended_no_exception_witness :
    ((("1985-06-01" : String) = "" ∨ (parseDate "1985-06-01").isSome)) ∧
      ∃ r, parse_station_record
        ["XX", "001", "0001", "bad", "-86.8", "NAD27", "", "", "", "", "1985-06-01"] =
        .ok r :=
  ⟨Or.inr (by decide),
    C2_amended_no_exception "XX" "001" "0001" "bad" "-86.8" "NAD27"
      "" "" "" "" "1985-06-01" [] (Or.inr (by decide))⟩

/-! ## Shared lemmas for the distance function -/

/-- The haversine intermediate of `calc_distance` lies in `[0, 1]` for
all real inputs. -/
lemma haversine_a_mem (lat1 lon1 lat2 lon2 : ℝ) :
    0 ≤ Real.sin (radians (lat2 - lat1) / 2) ^ 2 +
        Real.cos (radians lat1) * Real.cos (radians lat2) *
          Real.sin (radians (lon2 - lon1) / 2) ^ 2 ∧
      Real.sin (radians (lat2 - lat1) / 2) ^ 2 +
        Real.cos (radians lat1) * Real.cos (radians lat2) *
          Real.sin (radians (lon2 - lon1) / 2) ^ 2 ≤ 1 := by
  have hr : radians (lat2 - lat1) / 2 = (radians lat2 - radians lat1) / 2 := by
    unfold radians; ring
  rw [hr]
  exact haversine_term_bounds (radians lat1) (radians lat2) _
    (sq_nonneg _) (Real.sin_sq_le_one _)

/-- Swapping the two points leaves the haversine intermediate
unchanged. -/
lemma haversine_a_symm (lat1 lon1 lat2 lon2 : ℝ) :
    Real.sin (radians (lat1 - lat2) / 2) ^ 2 +
        Real.cos (radians lat2) * Real.cos (radians lat1) *
          Real.sin (radians (lon1 - lon2) / 2) ^ 2 =
      Real.sin (radians (lat2 - lat1) / 2) ^ 2 +
        Real.cos (radians lat1) * Real.cos (radians lat2) *
          Real.sin (radians (lon2 - lon1) / 2) ^ 2 := by
  unfold radians
  have e1 : (lat1 - lat2) * Real.pi / 180 / 2 =
      -((lat2 - lat1) * Real.pi / 180 / 2) := by ring
  have e2 : (lon1 - lon2) * Real.pi / 180 / 2 =
      -((lon2 - lon1) * Real.pi / 180 / 2) := by ring
  rw [e1, e2, Real.sin_neg, Real.sin_neg]
  ring

/-- Rounding with `py_round` never goes past an integer strictly above
the argument. -/
lemma py_round_le {x : ℝ} {n : ℤ} (h : x < n) : py_round x ≤ n := by
  unfold py_round
  have hfl : ⌊x⌋ < n := Int.floor_lt.mpr h
  split
  · split
    · exact hfl.le
    · exact hfl
  · rw [round_eq]
    have : ⌊x + 1 / 2⌋ < n + 1 := by
      apply Int.floor_lt.mpr
      push_cast
      linarith
    omega

/-- Applying `py_round` to a value strictly between `n + 1/2` and `n + 1`
rounds up to `n + 1`. -/
lemma py_round_eq_of_between {x : ℝ} {n : ℤ} (h1 : (n : ℝ) + 1 / 2 < x)
    (h2 : x < (n : ℝ) + 1) : py_round x = n + 1 := by
  have hfl : ⌊x⌋ = n := by
    apply Int.floor_eq_iff.mpr
    constructor
    · linarith
    · linarith
  unfold py_round
  rw [hfl]
  have hne : x - (n : ℝ) ≠ 1 / 2 := by intro he; linarith
  rw [if_neg hne, round_eq]
  apply Int.floor_eq_iff.mpr
  constructor
  · push_cast; linarith
  · push_cast; linarith

/-- Rounding zero miles to one decimal place gives zero. -/
lemma round_to_zero : round_to 0 1 = 0 := by
  unfold round_to py_round
  norm_num

/-- A raw distance below the cutoff keeps its rounded value at or below
the cutoff. -/
lemma round_to_one_le_30 {d : ℝ} (h : d < 30) : round_to d 1 ≤ 30 := by
  unfold round_to
  have h10 : d * 10 ^ 1 < ((300 : ℤ) : ℝ) := by push_cast; linarith
  have hle : py_round (d * 10 ^ 1) ≤ 300 := py_round_le h10
  have hcast : (py_round (d * 10 ^ 1) : ℝ) ≤ 300 := by exact_mod_cast hle
  rw [div_le_iff₀ (by norm_num : (0 : ℝ) < 10 ^ 1)]
  linarith

/-- Exact value of `calc_distance` for the counterexample pair: station
at the origin, grid point 0.434 degrees of latitude due north. -/
lemma calc_distance_meridian_val :
    calc_distance 0.434 0 0 0 = 3959 * (0.434 * Real.pi / 180) := by
  simp only [calc_distance, radians]
  have e0 : ((0 : ℝ) - 0) * Real.pi / 180 / 2 = 0 := by ring
  have e1 : ((0 : ℝ) - 0.434) * Real.pi / 180 / 2 =
      -(0.434 * Real.pi / 360) := by ring
  rw [e0, e1, Real.sin_zero, Real.sin_neg]
  have hx0 : (0 : ℝ) ≤ 0.434 * Real.pi / 360 := by positivity
  have hxpi2 : 0.434 * Real.pi / 360 ≤ Real.pi / 2 := by
    linarith [Real.pi_pos]
  have hsin0 : 0 ≤ Real.sin (0.434 * Real.pi / 360) :=
    Real.sin_nonneg_of_nonneg_of_le_pi hx0 (by linarith [Real.pi_pos])
  have ha : (-Real.sin (0.434 * Real.pi / 360)) ^ 2 +
      Real.cos (0.434 * Real.pi / 180) * Real.cos (0 * Real.pi / 180) * 0 ^ 2 =
      Real.sin (0.434 * Real.pi / 360) ^ 2 := by ring
  rw [ha, Real.sqrt_sq hsin0,
    Real.arcsin_sin (by linarith [Real.pi_pos]) hxpi2]
  ring

/-- The counterexample raw distance lies strictly between 29.95 and 30
miles. -/
lemma meridian_val_bounds :
    29.95 < 3959 * (0.434 * Real.pi / 180) ∧
      3959 * (0.434 * Real.pi / 180) < 30 := by
  constructor <;> nlinarith [Real.pi_gt_d6, Real.pi_lt_d6]

/-- The counterexample raw distance rounds to exactly 30.0. -/
lemma round_to_meridian_val : round_to (3959 * (0.434 * Real.pi / 180)) 1 = 30 := by
  obtain ⟨hlo, hhi⟩ := meridian_val_bounds
  unfold round_to
  have h1 : ((299 : ℤ) : ℝ) + 1 / 2 < 3959 * (0.434 * Real.pi / 180) * 10 ^ 1 := by
    push_cast; linarith
  have h2 : 3959 * (0.434 * Real.pi / 180) * 10 ^ 1 < ((299 : ℤ) : ℝ) + 1 := by
    push_cast; linarith
  rw [py_round_eq_of_between h1 h2]
  norm_num

/-! ## Claims about the distance function and neighbor assignment -/

/-- Claim C7: the distance from a point to itself is exactly zero. -/
theorem C7_calc_distance_identity (lat lon : ℝ) :
    calc_distance lat lon lat lon = 0 :=
  calc_distance_self lat lon

/-- Claim C6: `calc_distance` is symmetric in its two points. -/
theorem C6_calc_distance_symm (lat1 lon1 lat2 lon2 : ℝ) :
    calc_distance lat1 lon1 lat2 lon2 = calc_distance lat2 lon2 lat1 lon1 := by
  simp only [calc_distance]
  rw [haversine_a_symm]

/-- Claim C10: every distance is nonnegative and at most `3959 · π`
miles, half the circumference of the modelled Earth. -/
theorem C10_calc_distance_bounds (lat1 lon1 lat2 lon2 : ℝ) :
    0 ≤ calc_distance lat1 lon1 lat2 lon2 ∧
      calc_distance lat1 lon1 lat2 lon2 ≤ 3959 * Real.pi := by
  obtain ⟨ha0, ha1⟩ := haversine_a_mem lat1 lon1 lat2 lon2
  simp only [calc_distance]
  constructor
  · have harc : 0 ≤ Real.arcsin (Real.sqrt
        (Real.sin (radians (lat2 - lat1) / 2) ^ 2 +
          Real.cos (radians lat1) * Real.cos (radians lat2) *
            Real.sin (radians (lon2 - lon1) / 2) ^ 2)) :=
      Real.arcsin_nonneg.mpr (Real.sqrt_nonneg _)
    linarith
  · have hs1 : Real.sqrt
        (Real.sin (radians (lat2 - lat1) / 2) ^ 2 +
          Real.cos (radians lat1) * Real.cos (radians lat2) *
            Real.sin (radians (lon2 - lon1) / 2) ^ 2) ≤ 1 :=
      Real.sqrt_le_one.mpr ha1
    have harc := Real.arcsin_le_pi_div_two (Real.sqrt
        (Real.sin (radians (lat2 - lat1) / 2) ^ 2 +
          Real.cos (radians lat1) * Real.cos (radians lat2) *
            Real.sin (radians (lon2 - lon1) / 2) ^ 2))
    linarith

/-- Claim C3, in the exact-arithmetic model: the argument `sqrt a` that
`calc_distance` passes to `asin` always lies inside `[-1, 1]`, the
domain of `math.asin` — so only floating-point rounding, which this
model abstracts away, can push it outside (and the code contains no
clamp to stop that). -/
theorem C3_asin_argument_in_domain (lat1 lon1 lat2 lon2 : ℝ) :
    0 ≤ Real.sqrt
        (Real.sin (radians (lat2 - lat1) / 2) ^ 2 +
          Real.cos (radians lat1) * Real.cos (radians lat2) *
            Real.sin (radians (lon2 - lon1) / 2) ^ 2) ∧
      Real.sqrt
        (Real.sin (radians (lat2 - lat1) / 2) ^ 2 +
          Real.cos (radians lat1) * Real.cos (radians lat2) *
            Real.sin (radians (lon2 - lon1) / 2) ^ 2) ≤ 1 :=
  ⟨Real.sqrt_nonneg _, Real.sqrt_le_one.mpr (haversine_a_mem lat1 lon1 lat2 lon2).2⟩

/-- Counterexample to claim C1 as stated: a grid point 0.434 degrees of
latitude due north of a station at the origin has raw distance
≈ 29.988 < 30 miles, so it is kept, but the value stored for it is the
rounded distance 30.0, which is not strictly less than the cutoff. -/
theorem C1_counterexample :
    (determine_grid_point_neighbors [⟨"g", 0.434, 0⟩] ("s", 0, 0)).2 =
      [("g", 30)] ∧ ¬((30 : ℝ) < 30) := by
  constructor
  · simp only [determine_grid_point_neighbors]
    rw [List.filterMap]
    rw [calc_distance_meridian_val,
      if_pos (meridian_val_bounds.2), round_to_meridian_val]
    rfl
  · exact lt_irrefl 30

/-- Claim C1 as amended: every distance value stored in the neighbor
mapping is at most 30.0 (the raw distances are strictly below the
cutoff, but rounding to one decimal place can land exactly on 30.0). -/
theorem C1_amended_stored_distance_le_cutoff (GRID : List GridPoint)
    (rdd : String × ℝ × ℝ) (p : String × ℝ)
    (hp : p ∈ (determine_grid_point_neighbors GRID rdd).2) :
    p.2 ≤ 30 := by
  simp only [determine_grid_point_neighbors, List.mem_filterMap] at hp
  obtain ⟨grid, hgrid, hsome⟩ := hp
  by_cases hd : calc_distance grid.lat grid.lon rdd.2.1 rdd.2.2 < 30
  · rw [if_pos hd] at hsome
    injection hsome with hsome
    rw [← hsome]
    exact round_to_one_le_30 hd
  · rw [if_neg hd] at hsome
    exact Option.noConfusion hsome

/-- Witness for the amended C1: a station coincident with a grid point
stores distance 0.0, which is at most the cutoff. -/
theorem C1_amended_stored_distance_le_cutoff_witness :
    ("g", (0 : ℝ)) ∈
        (determine_grid_point_neighbors [⟨"g", 0, 0⟩] ("s", 0, 0)).2 ∧
      (0 : ℝ) ≤ 30 := by
  have hmem : ("g", (0 : ℝ)) ∈
      (determine_grid_point_neighbors [⟨"g", 0, 0⟩] ("s", 0, 0)).2 := by
    simp only [determine_grid_point_neighbors]
    rw [List.filterMap]
    rw [calc_distance_self, if_pos (by norm_num : (0 : ℝ) < 30), round_to_zero]
    exact List.mem_singleton.mpr rfl
  exact ⟨hmem, C1_amended_stored_distance_le_cutoff _ _ _ hmem⟩

end CompileStations
